import Mathlib

/-!
Shallow embedding of the gitedit chat reconciliation core.

The definitions below are translated from the ChatPage component and its helpers
(the optimistic-update reconciliation engine): the `allMessages` merged view, the
pending-message reconcile effect, the live message query (orderBy created_at plus
the thread filter), the `createThread` / `addMessage` mutation submitters, the
streaming read loop of `handleSend`, and the guest free-request gate.  Timestamps
are modelled as `Nat` milliseconds, ids as `Int` (the streaming sentinel id is -1,
so ids must be signed).
-/

namespace GitEdit

/-- A message row as displayed and reconciled by ChatPage (the `DisplayMessage`
type of the source): id, role, content, optional thread_id and created_at. -/
structure DisplayMessage where
  id : Int
  role : String
  content : String
  thread_id : Option Int := none
  created_at : Option Nat := none
deriving DecidableEq, Repr

/-- A guest-mode local message (the `GuestMessage` type of the source). -/
structure GuestMessage where
  id : Int
  role : String
  content : String
deriving DecidableEq, Repr

/-- The structural matching predicate used both by the reconcile effect and by the
`allMessages` merge loop: `m.role === pending.role && m.content === pending.content
&& m.thread_id === pending.thread_id`.  It compares the logical tuple
(role, content, thread_id) and never looks at ids. -/
def matchesPending (m pending : DisplayMessage) : Bool :=
  m.role == pending.role && m.content == pending.content &&
    m.thread_id == pending.thread_id

/-- The reconcile effect of ChatPage: when the buffer is nonempty, keep only the
pending entries for which no synced row has an equal (role, content, thread_id)
tuple; state is rewritten only when the filtered list is shorter (otherwise the
previous buffer object is kept unchanged). -/
def reconcile (pendingMessages dbMessages : List DisplayMessage) :
    List DisplayMessage :=
  if pendingMessages.length = 0 then pendingMessages
  else
    let stillPending := pendingMessages.filter fun pending =>
      !(dbMessages.any fun m => matchesPending m pending)
    if stillPending.length ≠ pendingMessages.length then stillPending
    else pendingMessages

/-- Sort key of the live message query: the created_at timestamp (rows synced from
the server always carry one). -/
def createdKey (m : DisplayMessage) : Nat := m.created_at.getD 0

/-- The dbMessages live query of ChatPage: the chat_messages replica rows, ordered
by created_at, filtered to the active thread; when the session is unauthenticated
or no thread is active the filter is pinned to the impossible thread id -1. -/
def dbMessagesQuery (rows : List DisplayMessage) (isAuthenticated : Bool)
    (activeThreadId : Option Int) : List DisplayMessage :=
  let ordered := rows.mergeSort fun a b => decide (createdKey a ≤ createdKey b)
  match isAuthenticated, activeThreadId with
  | true, some tid => ordered.filter fun m => m.thread_id == some tid
  | _, _ => ordered.filter fun m => m.thread_id == some (-1)

/-- Guest messages are projected to display shape with no thread_id and no
created_at (the guest branch of the `allMessages` memo). -/
def guestToDisplay (m : GuestMessage) : DisplayMessage :=
  { id := m.id, role := m.role, content := m.content }

/-- The ephemeral streaming entry appended last by `allMessages` while
streamingContent is nonempty: sentinel id -1, role assistant. -/
def streamingEntry (streamingContent : String) : DisplayMessage :=
  { id := -1, role := "assistant", content := streamingContent }

/-- The base list chosen by `allMessages` before pendings are merged: guest
messages when unauthenticated, the synced dbMessages when a thread is active,
empty otherwise. -/
def baseMessages (isAuthenticated : Bool) (guestMessages : List GuestMessage)
    (dbMessages : List DisplayMessage) (activeThreadId : Option Int) :
    List DisplayMessage :=
  if !isAuthenticated then guestMessages.map guestToDisplay
  else
    match activeThreadId with
    | some _ => dbMessages
    | none => []

/-- The pending-merge loop of `allMessages`: walk the Pending Write Buffer and
push each entry to the end of the accumulated list unless an entry with an equal
(role, content, thread_id) tuple is already present in it. -/
def pushPendings (msgs : List DisplayMessage) :
    List DisplayMessage → List DisplayMessage
  | [] => msgs
  | pending :: rest =>
    if (msgs.any fun m => matchesPending m pending) = true then
      pushPendings msgs rest
    else pushPendings (msgs ++ [pending]) rest

/-- The `allMessages` memo of ChatPage: base list, then the pendings not already
represented, then the streaming entry when streamingContent is nonempty. -/
def allMessages (isAuthenticated : Bool) (guestMessages : List GuestMessage)
    (dbMessages : List DisplayMessage) (activeThreadId : Option Int)
    (pendingMessages : List DisplayMessage) (streamingContent : String) :
    List DisplayMessage :=
  let msgs := pushPendings
    (baseMessages isAuthenticated guestMessages dbMessages activeThreadId)
    pendingMessages
  if streamingContent ≠ "" then msgs ++ [streamingEntry streamingContent]
  else msgs

/-- The six inputs the `allMessages` memo depends on (its dependency array). -/
structure ViewState where
  isAuthenticated : Bool
  guestMessages : List GuestMessage
  dbMessages : List DisplayMessage
  activeThreadId : Option Int
  pendingMessages : List DisplayMessage
  streamingContent : String
deriving DecidableEq, Repr

/-- The rendered view as a function of the memo inputs. -/
def view (st : ViewState) : List DisplayMessage :=
  allMessages st.isAuthenticated st.guestMessages st.dbMessages
    st.activeThreadId st.pendingMessages st.streamingContent

end GitEdit

namespace GitEdit

/-- Wire shape of the thread row returned by the createThread mutation:
`{ id, title, created_at? }`, created_at possibly absent. -/
structure ThreadWire where
  id : Int
  title : String
  created_at : Option Nat := none
deriving DecidableEq, Repr

/-- The thread record the client builds from the mutation response, with the
created_at default filled from the client clock. -/
structure ThreadRec where
  id : Int
  title : String
  created_at : Nat
deriving DecidableEq, Repr

/-- Wire shape of the message row returned by the addMessage mutation. -/
structure MessageWire where
  id : Int
  thread_id : Int
  role : String
  content : String
  created_at : Option Nat := none
deriving DecidableEq, Repr

/-- Outcome of one fetch call: an HTTP response carrying a status code and a
parsed body, or a network-level failure (the fetch promise rejects). -/
inductive FetchOutcome (β : Type) where
  | response (status : Nat) (body : β)
  | networkFailure (msg : String)
deriving DecidableEq, Repr

/-- The failures observable by a caller of createThread or addMessage: an error
thrown by the function body, or the rejection propagated from fetch itself. -/
inductive ClientError where
  | thrown (msg : String)
  | fetchRejected (msg : String)
deriving DecidableEq, Repr

/-- `res.ok` of the fetch API: status in the range [200, 300). -/
def resOk (status : Nat) : Bool := 200 ≤ status && status < 300

/-- The createThread mutation submitter: POST to /api/chat/mutations; on a non-ok
response it throws the fixed error "Failed to create chat"; on success it returns
the canonical thread, defaulting created_at to the client clock `now` when the
response carries none; a fetch rejection propagates unchanged. -/
def createThread (r : FetchOutcome ThreadWire) (now : Nat) :
    Except ClientError ThreadRec :=
  match r with
  | .networkFailure msg => .error (.fetchRejected msg)
  | .response status body =>
    if resOk status then
      .ok { id := body.id, title := body.title,
            created_at := body.created_at.getD now }
    else .error (.thrown "Failed to create chat")

/-- The addMessage mutation submitter: same shape as createThread with the fixed
error "Failed to add message", returning the canonical message row. -/
def addMessage (r : FetchOutcome MessageWire) (now : Nat) :
    Except ClientError DisplayMessage :=
  match r with
  | .networkFailure msg => .error (.fetchRejected msg)
  | .response status body =>
    if resOk status then
      .ok { id := body.id, role := body.role, content := body.content,
            thread_id := some body.thread_id,
            created_at := some (body.created_at.getD now) }
    else .error (.thrown "Failed to add message")

/-- One event of the streaming response read loop: a decoded text chunk, or an
abort (the read rejects / the stream errors partway). -/
inductive ChunkEvent where
  | chunk (s : String)
  | abortStream
deriving DecidableEq, Repr

/-- The read loop of handleSend: append each chunk to the accumulator until the
stream closes; an abort stops the loop and reports the content received so far
together with the aborted flag. -/
def streamLoop (acc : String) : List ChunkEvent → String × Bool
  | [] => (acc, false)
  | .chunk s :: rest => streamLoop (acc ++ s) rest
  | .abortStream :: _ => (acc, true)

/-- The pending assistant entry pushed after a successful stream: id from the
client clock plus one, role assistant, the accumulated content, the active
thread, created_at from the client clock. -/
def pendingAssistantMsg (threadId : Int) (now : Nat) (content : String) :
    DisplayMessage :=
  { id := Int.ofNat now + 1, role := "assistant", content := content,
    thread_id := some threadId, created_at := some now }

/-- The streaming tail of the authenticated handleSend: run the read loop; when
the stream closes normally, push the accumulated content (if nonempty) onto the
Pending Write Buffer and clear streamingContent; when the stream aborts, the
catch clause clears streamingContent and nothing is pushed.  Returns the final
streamingContent state and the entries appended to the buffer. -/
def finishStream (threadId : Int) (now : Nat) (events : List ChunkEvent) :
    String × List DisplayMessage :=
  let res := streamLoop "" events
  if res.snd = true then ("", [])
  else ("", if res.fst ≠ "" then [pendingAssistantMsg threadId now res.fst]
            else [])

/-- The free-request limit for unauthenticated users. -/
def FREE_REQUEST_LIMIT : Nat := 1

/-- The input.trim() call of handleSend, modelled over the character list so
that it is kernel-computable: drop whitespace from both ends of the string. -/
def trimString (s : String) : String :=
  ⟨((s.data.dropWhile Char.isWhitespace).reverse.dropWhile
      Char.isWhitespace).reverse⟩

/-- The component state touched by the guest branch of handleSend. -/
structure GuestSendState where
  input : String
  isLoading : Bool
  streamingContent : String
  guestMessages : List GuestMessage
  freeRequestsUsed : Nat
  showAuthPrompt : Bool
deriving DecidableEq, Repr

/-- Outcome of the guest completion request: a non-ok response, a byte stream of
chunk events, or a network failure. -/
inductive GuestFetchOutcome where
  | httpError (status : Nat)
  | stream (events : List ChunkEvent)
  | networkFailure
deriving DecidableEq, Repr

/-- The guest branch of handleSend: bail out on empty input or while loading;
clear the input, set loading, clear streamingContent; when the free-request
count has reached the limit, show the auth prompt and stop before any message is
appended or any request is issued; otherwise append the user message, call
/api/chat/guest, stream the reply, append the assistant message, bump the
free-request count and possibly show the prompt; any error clears
streamingContent.  Returns the new state and the number of network requests
issued by this attempt. -/
def handleSendGuest (st : GuestSendState) (now : Nat)
    (outcome : GuestFetchOutcome) : GuestSendState × Nat :=
  if trimString st.input = "" ∨ st.isLoading = true then (st, 0)
  else
    let userMessage := trimString st.input
    let st1 : GuestSendState :=
      { st with input := "", isLoading := true, streamingContent := "" }
    if st1.freeRequestsUsed ≥ FREE_REQUEST_LIMIT then
      ({ st1 with showAuthPrompt := true, isLoading := false }, 0)
    else
      let newUserMsg : GuestMessage :=
        { id := Int.ofNat now, role := "user", content := userMessage }
      let st2 : GuestSendState :=
        { st1 with guestMessages := st1.guestMessages ++ [newUserMsg] }
      match outcome with
      | .networkFailure =>
        ({ st2 with streamingContent := "", isLoading := false }, 1)
      | .httpError _ =>
        ({ st2 with streamingContent := "", isLoading := false }, 1)
      | .stream events =>
        let res := streamLoop "" events
        if res.snd = true then
          ({ st2 with streamingContent := "", isLoading := false }, 1)
        else
          let newAssistantMsg : GuestMessage :=
            { id := Int.ofNat now + 1, role := "assistant", content := res.fst }
          let newCount := st2.freeRequestsUsed + 1
          ({ st2 with
              guestMessages := st2.guestMessages ++ [newAssistantMsg],
              streamingContent := "",
              freeRequestsUsed := newCount,
              showAuthPrompt :=
                if newCount ≥ FREE_REQUEST_LIMIT then true
                else st2.showAuthPrompt,
              isLoading := false }, 1)

/-- The onError handler installed on the chat shape subscriptions in
collections.ts: it ignores the error and rethrows nothing (`none`). -/
def chatShapeOnError (_e : String) : Option String := none

/-- One delivery of a shape subscription: rows, or a stream error. -/
inductive ShapeOutcome where
  | delivered (rows : List DisplayMessage)
  | failed (err : String)
deriving DecidableEq, Repr

/-- Modelled from the spec: the shape-subscription dispatch of the electric
collection library is not part of this repository's sources; per the spec, on a
subscription error the collection consults the configured onError handler, and
when the handler surfaces no error the failure is swallowed and the replica is
left unchanged (no replica update, no thrown error). -/
def applyShapeOutcome (replica : List DisplayMessage) (outcome : ShapeOutcome) :
    Except String (List DisplayMessage) :=
  match outcome with
  | .delivered rows => .ok rows
  | .failed e =>
    match chatShapeOnError e with
    | none => .ok replica
    | some e2 => .error e2

theorem mem_pushPendings {p : DisplayMessage} :
    ∀ {acc pendings : List DisplayMessage}, p ∈ pushPendings acc pendings →
      p ∈ acc ∨ (p ∈ pendings ∧ ∀ m ∈ acc, matchesPending m p = false) := by
  intro acc pendings
  induction pendings generalizing acc with
  | nil => intro hp; exact Or.inl hp
  | cons q qs ih =>
    intro hp
    simp only [pushPendings] at hp
    by_cases hq : (acc.any fun m => matchesPending m q) = true
    · rw [if_pos hq] at hp
      rcases ih hp with h | ⟨h1, h2⟩
      · exact Or.inl h
      · exact Or.inr ⟨List.mem_cons_of_mem _ h1, h2⟩
    · rw [if_neg hq] at hp
      rcases ih hp with h | ⟨h1, h2⟩
      · rcases List.mem_append.mp h with h1 | h1
        · exact Or.inl h1
        · have hpq : p = q := List.mem_singleton.mp h1
          subst hpq
          refine Or.inr ⟨List.mem_cons_self _ _, ?_⟩
          intro m hm
          by_contra hmm
          exact hq (List.any_eq_true.mpr ⟨m, hm, by simpa using hmm⟩)
      · refine Or.inr ⟨List.mem_cons_of_mem _ h1, ?_⟩
        intro m hm
        exact h2 m (List.mem_append_left _ hm)

theorem pushPendings_eq_append :
    ∀ (acc pendings : List DisplayMessage),
      ∃ rest, pushPendings acc pendings = acc ++ rest ∧
        ∀ p ∈ rest, p ∈ pendings := by
  intro acc pendings
  induction pendings generalizing acc with
  | nil => exact ⟨[], by simp [pushPendings]⟩
  | cons q qs ih =>
    by_cases hq : (acc.any fun m => matchesPending m q) = true
    · obtain ⟨rest, h1, h2⟩ := ih acc
      refine ⟨rest, ?_, ?_⟩
      · simp only [pushPendings, if_pos hq]; exact h1
      · intro p hp; exact List.mem_cons_of_mem _ (h2 p hp)
    · obtain ⟨rest, h1, h2⟩ := ih (acc ++ [q])
      refine ⟨q :: rest, ?_, ?_⟩
      · simp only [pushPendings, if_neg hq]
        rw [h1, List.append_assoc]
        rfl
      · intro p hp
        rcases List.mem_cons.mp hp with h | h
        · exact h ▸ List.mem_cons_self _ _
        · exact List.mem_cons_of_mem _ (h2 p h)

theorem reconcile_eq_filter (pend db : List DisplayMessage) :
    reconcile pend db =
      pend.filter fun pending => !(db.any fun m => matchesPending m pending) := by
  unfold reconcile
  by_cases h0 : pend.length = 0
  · rw [if_pos h0]
    have : pend = [] := List.length_eq_zero.mp h0
    subst this
    rfl
  · rw [if_neg h0]
    by_cases hlen :
        (pend.filter fun pending =>
          !(db.any fun m => matchesPending m pending)).length ≠ pend.length
    · rw [if_pos hlen]
    · rw [if_neg hlen]
      push_neg at hlen
      exact ((List.filter_sublist pend).eq_of_length hlen).symm

/-- Claim C1: the merged view never contains a confirmed base entry and a pending
entry with identical (thread_id, role, content): any view entry that came from
the Pending Write Buffer (it is neither in the base list nor the streaming
entry) matches no entry of the base list, because a pending entry is appended
only when no structurally equal entry is already present in the view. -/
theorem allMessages_no_pending_confirmed_duplicate
    (isAuth : Bool) (guest : List GuestMessage) (db : List DisplayMessage)
    (tid : Option Int) (pend : List DisplayMessage) (s : String)
    (m p : DisplayMessage)
    (hm : m ∈ baseMessages isAuth guest db tid)
    (hp : p ∈ allMessages isAuth guest db tid pend s)
    (hpbase : p ∉ baseMessages isAuth guest db tid)
    (hpstream : p ≠ streamingEntry s) :
    matchesPending m p = false := by
  simp only [allMessages] at hp
  by_cases hs : s ≠ ""
  · rw [if_pos hs] at hp
    rcases List.mem_append.mp hp with h1 | h1
    · rcases mem_pushPendings h1 with h2 | ⟨_, h3⟩
      · exact absurd h2 hpbase
      · exact h3 m hm
    · exact absurd (List.mem_singleton.mp h1) hpstream
  · rw [if_neg hs] at hp
    rcases mem_pushPendings hp with h2 | ⟨_, h3⟩
    · exact absurd h2 hpbase
    · exact h3 m hm

/-- Witness for C1 at a concrete view state: one confirmed row, one pending
entry, the pending entry matches no confirmed entry. -/
theorem allMessages_no_pending_confirmed_duplicate_witness :
    matchesPending
      { id := 1, role := "user", content := "hi", thread_id := some 7,
        created_at := some 10 }
      { id := 99, role := "assistant", content := "yo", thread_id := some 7 }
      = false :=
  allMessages_no_pending_confirmed_duplicate true []
    [{ id := 1, role := "user", content := "hi", thread_id := some 7,
       created_at := some 10 }]
    (some 7)
    [{ id := 99, role := "assistant", content := "yo", thread_id := some 7 }]
    ""
    { id := 1, role := "user", content := "hi", thread_id := some 7,
      created_at := some 10 }
    { id := 99, role := "assistant", content := "yo", thread_id := some 7 }
    (by decide) (by decide) (by decide) (by decide)

/-- Claim C2: a reconcile pass removes every pending entry for which the
confirmed set contains an entry with an equal (thread_id, role, content) tuple,
and the matching predicate is structural on that tuple, never on ids: replacing
either id leaves the match unchanged. -/
theorem reconcile_removes_matched_pending
    (pend db : List DisplayMessage) (p : DisplayMessage)
    (hp : p ∈ pend) (hm : ∃ m ∈ db, matchesPending m p = true) :
    p ∉ reconcile pend db ∧
      ∀ (a b : DisplayMessage) (i j : Int),
        matchesPending { a with id := i } { b with id := j } =
          matchesPending a b := by
  constructor
  · rw [reconcile_eq_filter]
    intro hmem
    have h2 := (List.mem_filter.mp hmem).2
    obtain ⟨m, hmdb, hmp⟩ := hm
    have h3 : (db.any fun q => matchesPending q p) = true :=
      List.any_eq_true.mpr ⟨m, hmdb, hmp⟩
    rw [h3] at h2
    simp at h2
  · intro a b i j
    rfl

/-- Witness for C2: a pending entry whose tuple is confirmed (under a different
id) is gone after the reconcile pass. -/
theorem reconcile_removes_matched_pending_witness :
    ({ id := 50, role := "user", content := "hello", thread_id := some 7,
       created_at := some 90 } : DisplayMessage) ∉
      reconcile
        [{ id := 50, role := "user", content := "hello", thread_id := some 7,
           created_at := some 90 }]
        [{ id := 101, role := "user", content := "hello", thread_id := some 7,
           created_at := some 5 }] :=
  (reconcile_removes_matched_pending
    [{ id := 50, role := "user", content := "hello", thread_id := some 7,
       created_at := some 90 }]
    [{ id := 101, role := "user", content := "hello", thread_id := some 7,
       created_at := some 5 }]
    { id := 50, role := "user", content := "hello", thread_id := some 7,
      created_at := some 90 }
    (by decide)
    ⟨{ id := 101, role := "user", content := "hello", thread_id := some 7,
       created_at := some 5 }, by decide, by decide⟩).1

/-- Claim C5: the view computation is a pure, deterministic function of its six
memo inputs: recomputing it on equal input states yields structurally equal
ordered lists. -/
theorem view_pure_recompute (st1 st2 : ViewState) (h : st1 = st2) :
    view st1 = view st2 := by rw [h]

/-- Witness for C5 at a concrete view state. -/
theorem view_pure_recompute_witness :
    view { isAuthenticated := true, guestMessages := [],
           dbMessages := [{ id := 1, role := "user", content := "hi",
                            thread_id := some 7, created_at := some 10 }],
           activeThreadId := some 7,
           pendingMessages := [{ id := 9, role := "assistant", content := "ok",
                                 thread_id := some 7 }],
           streamingContent := "partial" } =
      view { isAuthenticated := true, guestMessages := [],
             dbMessages := [{ id := 1, role := "user", content := "hi",
                              thread_id := some 7, created_at := some 10 }],
             activeThreadId := some 7,
             pendingMessages := [{ id := 9, role := "assistant",
                                   content := "ok", thread_id := some 7 }],
             streamingContent := "partial" } :=
  view_pure_recompute _ _ rfl

/-- Claim C10: reconciliation only shrinks the Pending Write Buffer: the buffer
after a pass is an order-preserving subsequence of the buffer before it, and
when no pending entry matches any confirmed entry the buffer is unchanged. -/
theorem reconcile_sublist_and_no_match_identity
    (pend db : List DisplayMessage) :
    (reconcile pend db).Sublist pend ∧
      ((∀ p ∈ pend, ∀ m ∈ db, matchesPending m p = false) →
        reconcile pend db = pend) := by
  constructor
  · rw [reconcile_eq_filter]
    exact List.filter_sublist pend
  · intro h
    rw [reconcile_eq_filter]
    apply List.filter_eq_self.mpr
    intro p hp
    simp only [Bool.not_eq_true', List.any_eq_false]
    intro m hm
    simp [h p hp m hm]

/-- Witness for C10: with no matching confirmed entry the buffer passes through a
reconcile pass unchanged. -/
theorem reconcile_sublist_and_no_match_identity_witness :
    reconcile
      [{ id := 60, role := "user", content := "abc", thread_id := some 3 }]
      [{ id := 2, role := "assistant", content := "def", thread_id := some 3,
         created_at := some 1 }] =
      [{ id := 60, role := "user", content := "abc", thread_id := some 3 }] :=
  (reconcile_sublist_and_no_match_identity
    [{ id := 60, role := "user", content := "abc", thread_id := some 3 }]
    [{ id := 2, role := "assistant", content := "def", thread_id := some 3,
       created_at := some 1 }]).2 (by decide)

/-- Claim C3: the confirmed portion of the merged view is ordered by the
authoritative created_at timestamp (the live query sorts the replica rows), and
the view is that confirmed list followed by a tail drawn only from the Pending
Write Buffer and the streaming entry, so every pending entry and the streaming
entry render after all confirmed entries of the active thread. -/
theorem allMessages_confirmed_order_and_tail
    (rows : List DisplayMessage) (guest : List GuestMessage) (t : Int)
    (pend : List DisplayMessage) (s : String) :
    List.Pairwise (fun a b => createdKey a ≤ createdKey b)
        (dbMessagesQuery rows true (some t)) ∧
      ∃ rest,
        allMessages true guest (dbMessagesQuery rows true (some t)) (some t)
            pend s =
          dbMessagesQuery rows true (some t) ++ rest ∧
        ∀ p ∈ rest, p ∈ pend ∨ p = streamingEntry s := by
  constructor
  · have hs := @List.sorted_mergeSort DisplayMessage
      (fun a b => decide (createdKey a ≤ createdKey b))
      (fun a b c hab hbc => by
        simp only [decide_eq_true_eq] at hab hbc ⊢
        exact Nat.le_trans hab hbc)
      (fun a b => by
        simp only [Bool.or_eq_true, decide_eq_true_eq]
        exact Nat.le_total _ _)
      rows
    have hs2 : List.Pairwise (fun a b => createdKey a ≤ createdKey b)
        (rows.mergeSort fun a b => decide (createdKey a ≤ createdKey b)) :=
      hs.imp fun h => of_decide_eq_true h
    exact hs2.filter _
  · obtain ⟨rest, h1, h2⟩ :=
      pushPendings_eq_append (dbMessagesQuery rows true (some t)) pend
    by_cases hstream : s ≠ ""
    · refine ⟨rest ++ [streamingEntry s], ?_, ?_⟩
      · show (if s ≠ "" then
            pushPendings (dbMessagesQuery rows true (some t)) pend ++
              [streamingEntry s]
          else pushPendings (dbMessagesQuery rows true (some t)) pend) =
          dbMessagesQuery rows true (some t) ++ (rest ++ [streamingEntry s])
        rw [if_pos hstream, h1, List.append_assoc]
      · intro p hp
        rcases List.mem_append.mp hp with h | h
        · exact Or.inl (h2 p h)
        · exact Or.inr (List.mem_singleton.mp h)
    · refine ⟨rest, ?_, ?_⟩
      · show (if s ≠ "" then
            pushPendings (dbMessagesQuery rows true (some t)) pend ++
              [streamingEntry s]
          else pushPendings (dbMessagesQuery rows true (some t)) pend) =
          dbMessagesQuery rows true (some t) ++ rest
        rw [if_neg hstream, h1]
      · intro p hp
        exact Or.inl (h2 p hp)

/-- Witness for C3: the ordering half of the claim evaluated at concrete
out-of-order replica rows. -/
theorem allMessages_confirmed_order_and_tail_witness :
    List.Pairwise (fun a b => createdKey a ≤ createdKey b)
      (dbMessagesQuery
        [{ id := 2, role := "assistant", content := "b", thread_id := some 7,
           created_at := some 20 },
         { id := 1, role := "user", content := "a", thread_id := some 7,
           created_at := some 10 }] true (some 7)) :=
  (allMessages_confirmed_order_and_tail
    [{ id := 2, role := "assistant", content := "b", thread_id := some 7,
       created_at := some 20 },
     { id := 1, role := "user", content := "a", thread_id := some 7,
       created_at := some 10 }] [] 7 [] "").1

/-- Claim C4: a failed shape subscription is swallowed by the onError handler and
yields the unchanged (initially empty) replica rather than a thrown error; the
unauthenticated message query is pinned to the impossible filter thread_id = -1,
so over server-assigned (positive) thread ids it returns nothing; and the guest
view is independent of the replica contents altogether. -/
theorem guest_isolation_and_silent_failure :
    (∀ e : String, applyShapeOutcome [] (.failed e) = .ok []) ∧
      (∀ (rows : List DisplayMessage) (tid : Option Int),
        (∀ r ∈ rows, ∀ x : Int, r.thread_id = some x → 1 ≤ x) →
        dbMessagesQuery rows false tid = []) ∧
      (∀ (guest : List GuestMessage) (db1 db2 : List DisplayMessage)
        (tid : Option Int) (pend : List DisplayMessage) (s : String),
        allMessages false guest db1 tid pend s =
          allMessages false guest db2 tid pend s) := by
  refine ⟨fun e => rfl, ?_, fun guest db1 db2 tid pend s => rfl⟩
  intro rows tid h
  show (rows.mergeSort fun a b => decide (createdKey a ≤ createdKey b)).filter
      (fun m => m.thread_id == some (-1)) = []
  apply List.filter_eq_nil_iff.mpr
  intro r hr hcontra
  have hr2 : r ∈ rows := (List.mergeSort_perm rows _).mem_iff.mp hr
  have hth : r.thread_id = some (-1) := by simpa using hcontra
  have := h r hr2 (-1) hth
  omega

/-- Witness for C4: a replica row belonging to a real (positive) thread is
invisible to the unauthenticated query. -/
theorem guest_isolation_and_silent_failure_witness :
    dbMessagesQuery
      [{ id := 3, role := "user", content := "secret", thread_id := some 12,
         created_at := some 4 }] false none = [] :=
  guest_isolation_and_silent_failure.2.1
    [{ id := 3, role := "user", content := "secret", thread_id := some 12,
       created_at := some 4 }] none
    (by
      intro r hr x hx
      simp only [List.mem_singleton] at hr
      subst hr
      simp only [Option.some.injEq] at hx
      omega)

/-- Counterexample to claim C6 as stated: the buffer holds two distinct
optimistic copies of the same (thread_id, role, content) tuple; one delivered
matching confirmation makes the reconcile pass remove BOTH copies, not at most
one per confirmation. -/
theorem reconcile_one_confirmation_removes_two :
    reconcile
      [{ id := 100, role := "user", content := "hi", thread_id := some 7,
         created_at := some 10 },
       { id := 102, role := "user", content := "hi", thread_id := some 7,
         created_at := some 11 }]
      [{ id := 1, role := "user", content := "hi", thread_id := some 7,
         created_at := some 12 }] = [] ∧
    ({ id := 100, role := "user", content := "hi", thread_id := some 7,
       created_at := some 10 } : DisplayMessage) ≠
      { id := 102, role := "user", content := "hi", thread_id := some 7,
        created_at := some 11 } := by decide

/-- Claim C6 amended: when the buffer holds several pending copies of the same
(thread_id, role, content), a single delivered matching confirmation removes ALL
of them in one reconcile pass (not one copy per confirmation): after the pass no
pending entry matching any confirmed entry remains. -/
theorem reconcile_removes_all_matching_copies
    (pend db : List DisplayMessage) (c : DisplayMessage) (hc : c ∈ db) :
    (reconcile pend db).countP (fun p => matchesPending c p) = 0 := by
  rw [reconcile_eq_filter, List.countP_eq_zero]
  intro p hp hcp
  have h2 := (List.mem_filter.mp hp).2
  have h3 : (db.any fun m => matchesPending m p) = true :=
    List.any_eq_true.mpr ⟨c, hc, hcp⟩
  rw [h3] at h2
  simp at h2

/-- Witness for C6 amended: two identical optimistic copies, one confirmation,
zero matching copies remain. -/
theorem reconcile_removes_all_matching_copies_witness :
    (reconcile
      [{ id := 200, role := "user", content := "again", thread_id := some 3 },
       { id := 201, role := "user", content := "again", thread_id := some 3 }]
      [{ id := 9, role := "user", content := "again", thread_id := some 3,
         created_at := some 2 }]).countP
      (fun p => matchesPending
        { id := 9, role := "user", content := "again", thread_id := some 3,
          created_at := some 2 } p) = 0 :=
  reconcile_removes_all_matching_copies
    [{ id := 200, role := "user", content := "again", thread_id := some 3 },
     { id := 201, role := "user", content := "again", thread_id := some 3 }]
    [{ id := 9, role := "user", content := "again", thread_id := some 3,
       created_at := some 2 }]
    { id := 9, role := "user", content := "again", thread_id := some 3,
      created_at := some 2 }
    (by decide)

/-- Counterexample to claim C7 as stated: a stream aborting after the chunk
"Hel" was received: the read loop did accumulate "Hel", yet the catch clause
clears the displayed streaming content (the final streamingContent is "", the
partial content is NOT preserved) and nothing is pushed to the buffer. -/
theorem stream_abort_discards_partial :
    (streamLoop "" [ChunkEvent.chunk "Hel", ChunkEvent.abortStream]).fst = "Hel"
      ∧ finishStream 7 1000 [ChunkEvent.chunk "Hel", ChunkEvent.abortStream] =
        ("", []) := by decide

/-- Claim C7 amended: when the stream aborts or errors partway, the partial
content is discarded from the display (streamingContent is cleared by the catch
clause) and the aborted content is not added to the Pending Write Buffer. -/
theorem finishStream_abort_outcome
    (threadId : Int) (now : Nat) (events : List ChunkEvent)
    (h : (streamLoop "" events).snd = true) :
    finishStream threadId now events = ("", []) := by
  simp only [finishStream]
  rw [if_pos h]

/-- Witness for C7 amended at a concrete aborted stream. -/
theorem finishStream_abort_outcome_witness :
    finishStream 5 42 [ChunkEvent.chunk "pa", ChunkEvent.abortStream] =
      ("", []) :=
  finishStream_abort_outcome 5 42 [ChunkEvent.chunk "pa",
    ChunkEvent.abortStream] (by decide)

/-- Counterexample to claim C8 as stated: an unauthenticated (401) response and
a server-failure (500) response make createThread throw the identical error, so
the authentication failure and the transport failure of the claim are NOT
distinguishable to the caller. -/
theorem createThread_failures_indistinguishable :
    createThread (.response 401 { id := 1, title := "t" }) 5 =
        createThread (.response 500 { id := 1, title := "t" }) 5 ∧
      createThread (.response 401 { id := 1, title := "t" }) 5 =
        .error (.thrown "Failed to create chat") := ⟨rfl, rfl⟩

/-- Claim C8 amended: createThread returns the canonical thread on success; on
ANY non-ok response — authentication failure and server failure alike — it
throws one fixed error, so the two kinds are indistinguishable; only a
network-level failure surfaces differently, as the fetch rejection; addMessage
has the same shape with its own fixed message; no automatic retry is performed
(one request per call). -/
theorem mutation_failure_taxonomy
    (status : Nat) (w : ThreadWire) (mw : MessageWire) (now : Nat)
    (hbad : resOk status = false) :
    createThread (.response status w) now =
        .error (.thrown "Failed to create chat") ∧
      addMessage (.response status mw) now =
        .error (.thrown "Failed to add message") ∧
      (∀ msg, createThread (.networkFailure msg) now =
        .error (.fetchRejected msg)) ∧
      createThread (.response 200 w) now =
        .ok { id := w.id, title := w.title,
              created_at := w.created_at.getD now } := by
  refine ⟨?_, ?_, fun msg => rfl, rfl⟩
  · simp [createThread, hbad]
  · simp [addMessage, hbad]

/-- Witness for C8 amended: a 503 response throws the fixed createThread
error. -/
theorem mutation_failure_taxonomy_witness :
    createThread (.response 503 { id := 2, title := "x" }) 9 =
      .error (.thrown "Failed to create chat") :=
  (mutation_failure_taxonomy 503 { id := 2, title := "x" }
    { id := 3, thread_id := 2, role := "user", content := "c" } 9
    (by decide)).1

/-- Claim C9: an unauthenticated user who has used the single free request
(FREE_REQUEST_LIMIT = 1) is blocked entirely client-side on the next send
attempt: the auth prompt is shown, the guest message list is unchanged, and zero
network requests are issued. -/
theorem guest_over_limit_blocked
    (st : GuestSendState) (now : Nat) (outcome : GuestFetchOutcome)
    (hinput : ¬ trimString st.input = "") (hload : st.isLoading = false)
    (hlimit : st.freeRequestsUsed ≥ FREE_REQUEST_LIMIT) :
    handleSendGuest st now outcome =
      ({ st with input := "", isLoading := false, streamingContent := "",
                 showAuthPrompt := true }, 0) := by
  simp only [handleSendGuest]
  rw [if_neg (by simp [hinput, hload])]
  rw [if_pos hlimit]

/-- Witness for C9: a second guest attempt with the free request already used is
blocked with the prompt shown and no request issued. -/
theorem guest_over_limit_blocked_witness :
    handleSendGuest
      { input := "second try", isLoading := false, streamingContent := "",
        guestMessages := [{ id := 1, role := "user", content := "first" }],
        freeRequestsUsed := 1, showAuthPrompt := false }
      77 (.stream []) =
      ({ input := "", isLoading := false, streamingContent := "",
         guestMessages := [{ id := 1, role := "user", content := "first" }],
         freeRequestsUsed := 1, showAuthPrompt := true }, 0) :=
  guest_over_limit_blocked
    { input := "second try", isLoading := false, streamingContent := "",
      guestMessages := [{ id := 1, role := "user", content := "first" }],
      freeRequestsUsed := 1, showAuthPrompt := false }
    77 (.stream []) (by decide) rfl (by decide)

end GitEdit
